import Mathlib

/-!
Shallow embedding of the Signal-Protocol-Demo repository.

The repository's own code (src/SignalProtocolDemo.js) is a thin coordinator:
a dummy directory (SignalServerStore) and a SignalProtocolManager whose
methods delegate all cryptography to the external libsignal library
(SessionBuilder, SessionCipher, KeyHelper) and to the external helpers
(util.toString) and InMemorySignalProtocolStore, none of which are part of
the repository's sources.  The coordinator functions below are translated
line by line from src/SignalProtocolDemo.js; the library operations are
modelled from the specification (sections 4.1 - 4.7), using a symbolic
model of the cryptographic primitives: Diffie-Hellman outputs are
canonically ordered pairs of the two private scalars (so that both sides
compute the same value), key-derivation chains are free constructors (so
that distinct derivations give distinct keys), and the authenticated
symmetric cipher records its key and checks it on decryption.
-/

/-- Symbolic public key: `pubOf n` is the public half of private scalar `n`. -/
structure PubKey where
  n : Nat
deriving DecidableEq

def pubOf (priv : Nat) : PubKey := ⟨priv⟩

/-- Modelled from the spec: an asymmetric key pair as produced by the
(absent) libsignal KeyHelper; the public half is derivable from the
private scalar. -/
structure KeyPair where
  priv : Nat
deriving DecidableEq

def KeyPair.pubKey (k : KeyPair) : PubKey := pubOf k.priv

/-- Modelled from the spec (section 4.3): a Diffie-Hellman output. It is
represented as the canonically ordered pair of the two private scalars, so
that the initiator's `dh a (pubOf b)` and the responder's `dh b (pubOf a)`
agree, while distinct key pairs give distinct outputs. -/
def dh (localPriv : Nat) (remote : PubKey) : Nat × Nat :=
  (Nat.min localPriv remote.n, Nat.max localPriv remote.n)

/-- Modelled from the spec (sections 4.3 and 4.5): a root key is either the
key-derivation output over the concatenated X3DH Diffie-Hellman outputs, or
a previous root key mixed with a DH-ratchet output.  Free constructors make
the derivation history part of the value. -/
inductive RKey where
  | x3dh (dhs : List (Nat × Nat))
  | mix (prev : RKey) (d : Nat × Nat)
deriving DecidableEq

/-- Modelled from the spec (section 4.4): a chain key is either derived
from a root key or the one-way hash advance of a previous chain key. -/
inductive CKey where
  | fromRoot (rk : RKey)
  | hmacChain (ck : CKey)
deriving DecidableEq

/-- Modelled from the spec (section 4.4): a per-message key,
messageKey = HMAC(chainKey, "msg"). -/
inductive MKey where
  | hmacMsg (ck : CKey)
deriving DecidableEq

/-- Spec section 4.4: advanceChain(chainKey) -> (nextChainKey, messageKey). -/
def advanceChain (ck : CKey) : CKey × MKey :=
  (CKey.hmacChain ck, MKey.hmacMsg ck)

/-- Modelled from the spec (section 4.6): an authenticated symmetric
ciphertext, symbolically recording the message key it was produced under. -/
structure SymCiphertext where
  key : MKey
  plain : String
deriving DecidableEq

/-- Error taxonomy of spec section 7, extended with the failure cases the
demo's control flow can actually reach: a missing directory bundle handed
straight to processPreKey, a malformed pre-key message, and an
authenticated-decryption (MAC) failure, which section 7 does not name. -/
inductive ProtoError where
  | invalidSignature
  | unknownPreKeyId
  | unknownSignedPreKeyId
  | noSession
  | duplicateOrExpiredMessage
  | storeFailure
  | notFound
  | missingBundle
  | malformedMessage
  | invalidCiphertext
deriving DecidableEq

def symEncrypt (k : MKey) (p : String) : SymCiphertext := ⟨k, p⟩

def symDecrypt (k : MKey) (c : SymCiphertext) : Except ProtoError String :=
  if c.key = k then .ok c.plain else .error .invalidCiphertext

/-- Modelled from the spec (section 4.2): a signature by private scalar
`signer` over `data`, a free constructor. -/
structure Sig where
  signer : Nat
  data : PubKey
deriving DecidableEq

def signKey (priv : Nat) (data : PubKey) : Sig := ⟨priv, data⟩

def verifySig (identity : PubKey) (data : PubKey) (s : Sig) : Bool :=
  if pubOf s.signer = identity ∧ s.data = data then true else false

/-- Public record for one pre-key inside a bundle, shaped exactly as the
object literal returned by `_generatePreKeyBundleAsync` in the source. -/
structure PreKeyRecord where
  keyId : Nat
  publicKey : PubKey
deriving DecidableEq

/-- Public record for the signed pre-key inside a bundle, shaped exactly as
the object literal returned by `_generatePreKeyBundleAsync` in the source. -/
structure SignedPreKeyRecord where
  keyId : Nat
  publicKey : PubKey
  signature : Sig
deriving DecidableEq

/-- The pre-key bundle, shaped exactly as the object literal returned by
`_generatePreKeyBundleAsync` in the source. -/
structure PreKeyBundle where
  identityKey : PubKey
  registrationId : Nat
  preKey : PreKeyRecord
  signedPreKey : SignedPreKeyRecord
deriving DecidableEq

/-- Modelled from the spec: libsignal KeyHelper.generateIdentityKeyPair;
key generation is made deterministic by threading a freshness counter. -/
def KeyHelper_generateIdentityKeyPair (fresh : Nat) : KeyPair × Nat :=
  (⟨fresh⟩, fresh + 1)

/-- Modelled from the spec: libsignal KeyHelper.generateRegistrationId. -/
def KeyHelper_generateRegistrationId (fresh : Nat) : Nat × Nat :=
  (fresh, fresh + 1)

/-- Result shape of libsignal KeyHelper.generatePreKey. -/
structure GeneratedPreKey where
  keyId : Nat
  keyPair : KeyPair
deriving DecidableEq

/-- Modelled from the spec (section 4.2): generate one PreKey pair. -/
def KeyHelper_generatePreKey (keyId fresh : Nat) : GeneratedPreKey × Nat :=
  (⟨keyId, ⟨fresh⟩⟩, fresh + 1)

/-- Result shape of libsignal KeyHelper.generateSignedPreKey. -/
structure GeneratedSignedPreKey where
  keyId : Nat
  keyPair : KeyPair
  signature : Sig
deriving DecidableEq

/-- Modelled from the spec (section 4.2): generate one SignedPreKey pair and
sign its public key with the IdentityKeyPair's private key. -/
def KeyHelper_generateSignedPreKey (identity : KeyPair) (keyId fresh : Nat) :
    GeneratedSignedPreKey × Nat :=
  (⟨keyId, ⟨fresh⟩, signKey identity.priv (pubOf fresh)⟩, fresh + 1)

/-- The handshake fields a PREKEY_MESSAGE embeds, per spec section 4.6
(sender identity key, sender registration ID, pre-key ID used, sender
ephemeral public key) plus the signed-pre-key ID that section 4.7's
responder lookup ("matching the embedded IDs") requires. -/
structure Handshake where
  identityKey : PubKey
  registrationId : Nat
  preKeyId : Nat
  signedPreKeyId : Nat
  baseKey : PubKey
deriving DecidableEq

/-- A receiving chain: current chain key, next expected counter, and the
bounded cache of skipped message keys of spec section 4.7. -/
structure RecvChain where
  chain : CKey
  next : Nat
  skipped : List (Nat × MKey)
deriving DecidableEq

/-- Per-peer session state, per spec section 3: root key, current local
ratchet key, last seen remote ratchet key, sending chain with its counter,
receiving chain, and the handshake still to be embedded in outgoing
PREKEY_MESSAGE envelopes (present only between the initiator's key
agreement and its first send, per spec section 4.6's rule that an existing
session emits ORDINARY_MESSAGE). -/
structure SessionState where
  rootKey : RKey
  localRatchet : Nat
  remoteRatchet : PubKey
  sendChain : Option (CKey × Nat)
  recvChain : Option RecvChain
  pendingHandshake : Option Handshake
deriving DecidableEq

/-- libsignal.SignalProtocolAddress as constructed by the source. -/
structure SignalProtocolAddress where
  name : String
  deviceId : Nat
deriving DecidableEq

/-- Modelled from the spec (section 4.1): the KeyStore interface backing
the (absent) InMemorySignalProtocolStore: identity key pair and
registration ID, pre-keys and signed pre-keys by numeric ID, and sessions
by remote address. -/
structure SignalProtocolStore where
  identityKeyPair : Option KeyPair
  registrationId : Option Nat
  preKeys : Nat → Option KeyPair
  signedPreKeys : Nat → Option KeyPair
  sessions : SignalProtocolAddress → Option SessionState

def emptyStore : SignalProtocolStore :=
  ⟨none, none, fun _ => none, fun _ => none, fun _ => none⟩

def storePreKey (st : SignalProtocolStore) (keyId : Nat) (k : KeyPair) :
    SignalProtocolStore :=
  { st with preKeys := fun i => if i = keyId then some k else st.preKeys i }

def removePreKey (st : SignalProtocolStore) (keyId : Nat) :
    SignalProtocolStore :=
  { st with preKeys := fun i => if i = keyId then none else st.preKeys i }

def storeSignedPreKey (st : SignalProtocolStore) (keyId : Nat) (k : KeyPair) :
    SignalProtocolStore :=
  { st with signedPreKeys := fun i => if i = keyId then some k else st.signedPreKeys i }

def loadSession (st : SignalProtocolStore) (a : SignalProtocolAddress) :
    Option SessionState :=
  st.sessions a

def storeSession (st : SignalProtocolStore) (a : SignalProtocolAddress)
    (s : SessionState) : SignalProtocolStore :=
  { st with sessions := fun b => if b = a then some s else st.sessions b }

/-- The ratchet message of spec section 4.6: sender ratchet public key,
sending-chain counter, and the authenticated ciphertext. -/
structure WireMessage where
  ratchetKey : PubKey
  counter : Nat
  ciphertext : SymCiphertext
deriving DecidableEq

/-- Body of a wire envelope: optional embedded handshake (present for
PREKEY_MESSAGE) plus the ratchet message. -/
structure MessageBody where
  handshake : Option Handshake
  message : WireMessage
deriving DecidableEq

/-- The ciphertext envelope: a numeric `type` tag (libsignal uses 3 for
pre-key messages, matching the source's `cipherText.type == 3` test) and a
body. -/
structure CiphertextEnvelope where
  type : Nat
  body : MessageBody
deriving DecidableEq

def PREKEY_MESSAGE : Nat := 3
def ORDINARY_MESSAGE : Nat := 1

/-- Modelled from the spec (sections 4.4 and 4.7): advance a chain key
`steps` times starting at counter `cur`, returning the final chain key and
the list of skipped (counter, message key) pairs produced on the way. -/
def skipKeys : CKey → Nat → Nat → CKey × List (Nat × MKey)
  | ck, _, 0 => (ck, [])
  | ck, cur, steps + 1 =>
    let a := advanceChain ck
    let rest := skipKeys a.1 (cur + 1) steps
    (rest.1, (cur, a.2) :: rest.2)

/-- Bound on the skipped-key cache, spec section 4.7 ("default ~2000"). -/
def MAX_SKIP : Nat := 2000

/-- Modelled from the spec (section 4.7): consume the message key for
counter `n` from a receiving chain: a counter below the high-water mark is
served from the skipped-key cache or rejected as
DuplicateOrExpiredMessage; a counter at or above it advances the chain,
caching the skipped keys, subject to the MAX_SKIP bound. -/
def chainConsume (rc : RecvChain) (n : Nat) : Except ProtoError (MKey × RecvChain) :=
  if n < rc.next then
    match rc.skipped.find? (fun p => p.1 == n) with
    | some p => .ok (p.2, ⟨rc.chain, rc.next, rc.skipped.filter (fun q => q.1 != n)⟩)
    | none => .error .duplicateOrExpiredMessage
  else if n - rc.next > MAX_SKIP then .error .duplicateOrExpiredMessage
  else
    let s := skipKeys rc.chain rc.next (n - rc.next)
    let a := advanceChain s.1
    .ok (a.2, ⟨a.1, n + 1, rc.skipped ++ s.2⟩)

/-- Modelled from the spec (sections 4.5 and 4.7): receive one ratchet
message on a session.  A message carrying the last recorded remote ratchet
key is consumed from the current receiving chain; a new remote ratchet key
triggers the receiver-initiated DH-ratchet step: mix its DH output with
the local ratchet key into the root key, derive the new receiving chain,
generate a fresh local ratchet key, and clear the sending chain so the
next local send derives a new one. -/
def sessionRecv (s : SessionState) (m : WireMessage) (fresh : Nat) :
    Except ProtoError (String × SessionState × Nat) :=
  if m.ratchetKey = s.remoteRatchet then
    match s.recvChain with
    | none => .error .duplicateOrExpiredMessage
    | some rc =>
      match chainConsume rc m.counter with
      | .error e => .error e
      | .ok (mk, rc') =>
        match symDecrypt mk m.ciphertext with
        | .error e => .error e
        | .ok p => .ok (p, { s with recvChain := some rc' }, fresh)
  else
    let rk' := RKey.mix s.rootKey (dh s.localRatchet m.ratchetKey)
    let rc : RecvChain := ⟨CKey.fromRoot rk', 0, []⟩
    match chainConsume rc m.counter with
    | .error e => .error e
    | .ok (mk, rc') =>
      match symDecrypt mk m.ciphertext with
      | .error e => .error e
      | .ok p => .ok (p, ⟨rk', fresh, m.ratchetKey, none, some rc', none⟩, fresh + 1)

/-- Modelled from the spec (sections 4.4 to 4.6): send one message on a
session.  An initialized sending chain is advanced in place; an absent one
(a responder's first reply after a received ratchet key) first performs
the sender side of the DH-ratchet step: generate a fresh ratchet key, mix
its DH output with the remote ratchet key into the root key, and derive
the new sending chain. -/
def sessionSend (s : SessionState) (p : String) (fresh : Nat) :
    WireMessage × SessionState × Nat :=
  match s.sendChain with
  | some (ck, n) =>
    let a := advanceChain ck
    (⟨pubOf s.localRatchet, n, symEncrypt a.2 p⟩,
     { s with sendChain := some (a.1, n + 1) }, fresh)
  | none =>
    let newR := fresh
    let rk' := RKey.mix s.rootKey (dh newR s.remoteRatchet)
    let a := advanceChain (CKey.fromRoot rk')
    (⟨pubOf newR, 0, symEncrypt a.2 p⟩,
     ⟨rk', newR, s.remoteRatchet, some (a.1, 1), s.recvChain, s.pendingHandshake⟩,
     fresh + 1)

/-- Modelled from the spec (sections 3 and 4.3): libsignal
SessionBuilder.processPreKey.  A bundle is consumed at most once per
recipient: if a SessionState already exists for the address the call
leaves the store unchanged (spec section 3: "subsequent messages reuse the
derived session, not the bundle").  Otherwise the SignedPreKey signature
is verified (InvalidSignature on failure), the X3DH root key is derived
from the four Diffie-Hellman outputs of section 4.3, and the initiator's
SessionState is persisted with the root key as initial sending chain root,
the remote signed pre-key recorded as first remote ratchet key, and the
handshake fields pending for the first PREKEY_MESSAGE. -/
def SessionBuilder_processPreKey (store : SignalProtocolStore)
    (address : SignalProtocolAddress) (bundle : Option PreKeyBundle)
    (fresh : Nat) : Except ProtoError (SignalProtocolStore × Nat) :=
  if (loadSession store address).isSome then .ok (store, fresh)
  else
    match bundle with
    | none => .error .missingBundle
    | some b =>
      if verifySig b.identityKey b.signedPreKey.publicKey b.signedPreKey.signature then
        match store.identityKeyPair, store.registrationId with
        | some idA, some rid =>
          let ephA := fresh
          let ratchA := fresh + 1
          let dhs := [dh idA.priv b.signedPreKey.publicKey, dh ephA b.identityKey,
                      dh ephA b.signedPreKey.publicKey, dh ephA b.preKey.publicKey]
          let rk0 := RKey.x3dh dhs
          let h : Handshake := ⟨idA.pubKey, rid, b.preKey.keyId, b.signedPreKey.keyId, pubOf ephA⟩
          let s : SessionState :=
            ⟨rk0, ratchA, b.signedPreKey.publicKey, some (CKey.fromRoot rk0, 0), none, some h⟩
          .ok (storeSession store address s, fresh + 2)
        | _, _ => .error .notFound
      else .error .invalidSignature

/-- Modelled from the spec (section 4.6): libsignal SessionCipher.encrypt.
Requires a SessionState (the demo always establishes one via processPreKey
first), advances or creates the sending chain, and emits a PREKEY_MESSAGE
embedding the pending handshake when one is present (first send after the
initiator's key agreement) and an ORDINARY_MESSAGE otherwise. -/
def SessionCipher_encrypt (store : SignalProtocolStore)
    (address : SignalProtocolAddress) (message : String) (fresh : Nat) :
    Except ProtoError (CiphertextEnvelope × SignalProtocolStore × Nat) :=
  match loadSession store address with
  | none => .error .noSession
  | some s =>
    let r := sessionSend s message fresh
    let etype := if s.pendingHandshake.isSome then PREKEY_MESSAGE else ORDINARY_MESSAGE
    let body : MessageBody := ⟨s.pendingHandshake, r.1⟩
    let s' := { r.2.1 with pendingHandshake := none }
    .ok (⟨etype, body⟩, storeSession store address s', r.2.2)

/-- A JavaScript Promise, the value an `async` libsignal method returns.
Decryption results are wrapped in it so that the embedding can distinguish
an awaited result from the Promise object itself. -/
structure Promise (α : Type) where
  val : α

/-- Modelled from the spec (section 4.7): libsignal
SessionCipher.decryptPreKeyWhisperMessage.  With an existing session the
embedded ratchet message is decrypted on it; with none, the responder side
of the key agreement runs: look up the pre-key and signed pre-key matching
the embedded IDs (UnknownPreKeyId / UnknownSignedPreKeyId when absent),
derive the same X3DH root key, delete the consumed one-time pre-key,
construct the SessionState, and decrypt the embedded ciphertext on the
newly derived receiving chain.  The state is persisted only on success. -/
def SessionCipher_decryptPreKeyWhisperMessage (store : SignalProtocolStore)
    (address : SignalProtocolAddress) (body : MessageBody) (fresh : Nat) :
    Promise (Except ProtoError (String × SignalProtocolStore × Nat)) :=
  ⟨match loadSession store address with
    | some s =>
      match sessionRecv s body.message fresh with
      | .error e => .error e
      | .ok (p, s', f') => .ok (p, storeSession store address s', f')
    | none =>
      match body.handshake with
      | none => .error .malformedMessage
      | some h =>
        match store.preKeys h.preKeyId with
        | none => .error .unknownPreKeyId
        | some opk =>
          match store.signedPreKeys h.signedPreKeyId with
          | none => .error .unknownSignedPreKeyId
          | some spk =>
            match store.identityKeyPair with
            | none => .error .notFound
            | some idB =>
              let dhs := [dh spk.priv h.identityKey, dh idB.priv h.baseKey,
                          dh spk.priv h.baseKey, dh opk.priv h.baseKey]
              let rk0 := RKey.x3dh dhs
              let s : SessionState :=
                ⟨rk0, spk.priv, body.message.ratchetKey, none,
                 some ⟨CKey.fromRoot rk0, 0, []⟩, none⟩
              let store1 := removePreKey store h.preKeyId
              match sessionRecv s body.message fresh with
              | .error e => .error e
              | .ok (p, s', f') => .ok (p, storeSession store1 address s', f')⟩

/-- Modelled from the spec (section 4.7): libsignal
SessionCipher.decryptWhisperMessage.  Locates the SessionState (NoSession
when absent) and consumes the appropriate receiving-chain message key,
running the DH-ratchet step when the message carries a new remote ratchet
key. -/
def SessionCipher_decryptWhisperMessage (store : SignalProtocolStore)
    (address : SignalProtocolAddress) (body : MessageBody) (fresh : Nat) :
    Promise (Except ProtoError (String × SignalProtocolStore × Nat)) :=
  ⟨match loadSession store address with
    | none => .error .noSession
    | some s =>
      match sessionRecv s body.message fresh with
      | .error e => .error e
      | .ok (p, s', f') => .ok (p, storeSession store address s', f')⟩

/-- The argument `util.toString` receives in the source: either an awaited
decrypted string, or (on the source's ordinary-message branch, which omits
`await`) the pending Promise object itself. -/
inductive JsValue where
  | str (s : String)
  | pendingPromise
deriving DecidableEq

/-- Modelled from the absent helpers.js: `util.toString` returns a string
argument unchanged; applied to a pending Promise object (not a string
and not decrypted bytes) it cannot recover the plaintext, modelled as the
JavaScript object-to-string marker. -/
def util_toString : JsValue → String
  | .str s => s
  | .pendingPromise => "[object Promise]"

/-- SignalServerStore (source lines 7-31): the dummy directory is a plain
map from user ID to the registered pre-key bundle. -/
def SignalServerStore := String → Option PreKeyBundle

def emptySignalServerStore : SignalServerStore := fun _ => none

/-- Source: `registerNewPreKeyBundle(userId, preKeyBundle)` assigns
`this.store[userId] = preKeyBundle`. -/
def registerNewPreKeyBundle (server : SignalServerStore) (userId : String)
    (preKeyBundle : PreKeyBundle) : SignalServerStore :=
  fun u => if u = userId then some preKeyBundle else server u

/-- Source: `getPreKeyBundle(userId)` returns `this.store[userId]`
(`undefined`, here `none`, when the user was never registered). -/
def getPreKeyBundle (server : SignalServerStore) (userId : String) :
    Option PreKeyBundle :=
  server userId

/-- Observable calls the manager makes on the external directory. -/
inductive DirectoryEvent where
  | fetchBundle (userId : String)
deriving DecidableEq

/-- Source `encryptMessageAsync(remoteUserId, message)` (lines 60-71):
construct the address with the hard-coded device ID 123, fetch the remote
user's pre-key bundle from the signal server, process it with the session
builder, then encrypt with the session cipher.  The returned event list
records the directory fetch the call performs. -/
def encryptMessageAsync (store : SignalProtocolStore) (server : SignalServerStore)
    (remoteUserId : String) (message : String) (fresh : Nat) :
    Except ProtoError (CiphertextEnvelope × SignalProtocolStore × Nat) × List DirectoryEvent :=
  let address : SignalProtocolAddress := ⟨remoteUserId, 123⟩
  let remoteUserPreKey := getPreKeyBundle server remoteUserId
  let events := [DirectoryEvent.fetchBundle remoteUserId]
  match SessionBuilder_processPreKey store address remoteUserPreKey fresh with
  | .error e => (.error e, events)
  | .ok (store1, f1) => (SessionCipher_encrypt store1 address message f1, events)

/-- Source `decryptMessageAsync(remoteUserId, cipherText)` (lines 80-93):
construct the address with the hard-coded device ID 123 and dispatch on
`cipherText.type == 3`.  The pre-key branch awaits
decryptPreKeyWhisperMessage and converts the result with util.toString.
The ordinary branch reproduces the source verbatim: it does NOT await
decryptWhisperMessage, so util.toString is applied to the pending Promise
object; the queued decryption job still runs (its state update is kept on
success), but its value, and any rejection such as NoSession, never
reaches the caller. -/
def decryptMessageAsync (store : SignalProtocolStore) (remoteUserId : String)
    (cipherText : CiphertextEnvelope) (fresh : Nat) :
    Except ProtoError (String × SignalProtocolStore × Nat) :=
  let address : SignalProtocolAddress := ⟨remoteUserId, 123⟩
  let messageHasEmbeddedPreKeyBundle := cipherText.type == 3
  if messageHasEmbeddedPreKeyBundle then
    match (SessionCipher_decryptPreKeyWhisperMessage store address cipherText.body fresh).val with
    | .error e => .error e
    | .ok (m, st', f') => .ok (util_toString (JsValue.str m), st', f')
  else
    let p := SessionCipher_decryptWhisperMessage store address cipherText.body fresh
    match p.val with
    | .ok (_, st', f') => .ok (util_toString JsValue.pendingPromise, st', f')
    | .error _ => .ok (util_toString JsValue.pendingPromise, store, fresh)

/-- Source `_generateIdentityAsync()` (lines 98-107): generate an identity
key pair and a registration ID and put both in the store. -/
def generateIdentityAsync (store : SignalProtocolStore) (fresh : Nat) :
    SignalProtocolStore × Nat :=
  let r0 := KeyHelper_generateIdentityKeyPair fresh
  let r1 := KeyHelper_generateRegistrationId r0.2
  ({ store with identityKeyPair := some r0.1, registrationId := some r1.1 }, r1.2)

/-- Source `_generatePreKeyBundleAsync(preKeyId, signedPreKeyId)` (lines
115-148): read the identity key pair and registration ID from the store,
generate one pre-key and one signed pre-key, persist both key pairs under
their IDs, and return the public bundle object. -/
def generatePreKeyBundleAsync (store : SignalProtocolStore)
    (preKeyId signedPreKeyId : Nat) (fresh : Nat) :
    Except ProtoError (PreKeyBundle × SignalProtocolStore × Nat) :=
  match store.identityKeyPair, store.registrationId with
  | some identity, some registrationId =>
    let k0 := KeyHelper_generatePreKey preKeyId fresh
    let preKey := k0.1
    let k1 := KeyHelper_generateSignedPreKey identity signedPreKeyId k0.2
    let signedPreKey := k1.1
    let store1 := storePreKey store preKeyId preKey.keyPair
    let store2 := storeSignedPreKey store1 signedPreKeyId signedPreKey.keyPair
    .ok ({ identityKey := identity.pubKey,
           registrationId := registrationId,
           preKey := { keyId := preKeyId, publicKey := preKey.keyPair.pubKey },
           signedPreKey := { keyId := signedPreKeyId,
                             publicKey := signedPreKey.keyPair.pubKey,
                             signature := signedPreKey.signature } },
         store2, k1.2)
  | _, _ => .error .notFound

/-- Source `initializeAsync()` (lines 46-52): generate the identity, then a
pre-key bundle with the constant IDs 123 and 456, and register it with the
signal server under the user's ID. -/
def initializeAsync (userId : String) (store : SignalProtocolStore)
    (server : SignalServerStore) (fresh : Nat) :
    Except ProtoError (SignalProtocolStore × SignalServerStore × Nat) :=
  let r := generateIdentityAsync store fresh
  match generatePreKeyBundleAsync r.1 123 456 r.2 with
  | .error e => .error e
  | .ok (preKeyBundle, store1, f1) =>
    .ok (store1, registerNewPreKeyBundle server userId preKeyBundle, f1)

/-- Source `runDemo()` (line 155): the first demo user. -/
def user1 : String := "user1@domain.cc"

/-- Source `runDemo()` (line 156): the second demo user. -/
def user2 : String := "user2@domain.cc"

def defaultMKey : MKey := MKey.hmacMsg (CKey.fromRoot (RKey.x3dh []))

def defaultEnvelope : CiphertextEnvelope :=
  ⟨0, ⟨none, ⟨pubOf 0, 0, symEncrypt defaultMKey ""⟩⟩⟩

/-- Demo trace: user1's initialization (source line 163), freshness 0. -/
def demoInit1 : SignalProtocolStore × SignalServerStore × Nat :=
  match initializeAsync user1 emptyStore emptySignalServerStore 0 with
  | .ok r => r
  | .error _ => (emptyStore, emptySignalServerStore, 0)

/-- Demo trace: user2's initialization (source line 164), continuing the
freshness counter and the shared dummy server. -/
def demoInit2 : SignalProtocolStore × SignalServerStore × Nat :=
  match initializeAsync user2 emptyStore demoInit1.2.1 demoInit1.2.2 with
  | .ok r => r
  | .error _ => (emptyStore, emptySignalServerStore, 0)

def demoStore1 : SignalProtocolStore := demoInit1.1
def demoStore2 : SignalProtocolStore := demoInit2.1
def demoServer : SignalServerStore := demoInit2.2.1
def demoFresh0 : Nat := demoInit2.2.2

/-- Demo trace: user1 encrypts "Hello User 2 !" for user2 (source line 171). -/
def demoEncryptCall1 :
    Except ProtoError (CiphertextEnvelope × SignalProtocolStore × Nat) × List DirectoryEvent :=
  encryptMessageAsync demoStore1 demoServer user2 "Hello User 2 !" demoFresh0

def demoEnc1 : CiphertextEnvelope × SignalProtocolStore × Nat :=
  match demoEncryptCall1.1 with
  | .ok r => r
  | .error _ => (defaultEnvelope, emptyStore, 0)

/-- The first envelope of the demo, user1 to user2. -/
def demoEncrypted1 : CiphertextEnvelope := demoEnc1.1

/-- User1's store after sending the first message. -/
def demoStore1b : SignalProtocolStore := demoEnc1.2.1

/-- Demo trace: user2 decrypts the first message (source line 174). -/
def demoDec1 : String × SignalProtocolStore × Nat :=
  match decryptMessageAsync demoStore2 user1 demoEncrypted1 demoEnc1.2.2 with
  | .ok r => r
  | .error _ => ("", emptyStore, 0)

/-- User2's store after decrypting the first message. -/
def demoStore2b : SignalProtocolStore := demoDec1.2.1

/-- Demo trace: user2 encrypts the reply "What is up user 1?" for user1
(source line 178). -/
def demoEncryptCall2 :
    Except ProtoError (CiphertextEnvelope × SignalProtocolStore × Nat) × List DirectoryEvent :=
  encryptMessageAsync demoStore2b demoServer user1 "What is up user 1?" demoDec1.2.2

def demoEnc2 : CiphertextEnvelope × SignalProtocolStore × Nat :=
  match demoEncryptCall2.1 with
  | .ok r => r
  | .error _ => (defaultEnvelope, emptyStore, 0)

/-- The reply envelope of the demo, user2 to user1. -/
def demoEncrypted2 : CiphertextEnvelope := demoEnc2.1

/-- Demo trace: user1 decrypts the reply (source line 181). -/
def demoDec2 : Except ProtoError (String × SignalProtocolStore × Nat) :=
  decryptMessageAsync demoStore1b user2 demoEncrypted2 demoEnc2.2.2

/-- What awaiting the reply's decryptWhisperMessage would have produced at
user1: the value of the queued decryption job the source never awaits. -/
def demoUnderlying2 : Except ProtoError (String × SignalProtocolStore × Nat) :=
  (SessionCipher_decryptWhisperMessage demoStore1b ⟨user2, 123⟩ demoEncrypted2.body demoEnc2.2.2).val

/-- Alternative continuation for the round-trip claim: user1 sends a second
message to user2 after the first exchange. -/
def demoEncA2 : CiphertextEnvelope × SignalProtocolStore × Nat :=
  match (encryptMessageAsync demoStore1b demoServer user2 "Hello once more User 2 !" demoDec1.2.2).1 with
  | .ok r => r
  | .error _ => (defaultEnvelope, emptyStore, 0)

/-- User2's demo decryption of user1's second message. -/
def demoDecB2 : Except ProtoError (String × SignalProtocolStore × Nat) :=
  decryptMessageAsync demoStore2b user1 demoEncA2.1 demoEncA2.2.2

/-- What awaiting decryptWhisperMessage on user1's second message would
have produced at user2. -/
def demoUnderlyingB2 : Except ProtoError (String × SignalProtocolStore × Nat) :=
  (SessionCipher_decryptWhisperMessage demoStore2b ⟨user1, 123⟩ demoEncA2.1.body demoEncA2.2.2).val

def defaultSessionState : SessionState := ⟨RKey.x3dh [], 0, pubOf 0, none, none, none⟩

/-- User1's concrete session with user2 after the first demo send. -/
def demoSessionA : SessionState :=
  (loadSession demoStore1b ⟨user2, 123⟩).getD defaultSessionState

/-- The sending chain key inside `demoSessionA`. -/
def demoCkA : CKey :=
  (demoSessionA.sendChain.getD (CKey.fromRoot (RKey.x3dh []), 0)).1

/-- Concrete store used to witness the bundle-generation theorem. -/
def witStore : SignalProtocolStore :=
  { emptyStore with identityKeyPair := some ⟨5⟩, registrationId := some 9 }

theorem sessions_storeSession_ne (st : SignalProtocolStore)
    (a b : SignalProtocolAddress) (s : SessionState) (h : b ≠ a) :
    (storeSession st a s).sessions b = st.sessions b := by
  simp [storeSession, h]

theorem sessions_removePreKey (st : SignalProtocolStore) (i : Nat) :
    (removePreKey st i).sessions = st.sessions := rfl

theorem processPreKey_sessions_frame (store : SignalProtocolStore)
    (address : SignalProtocolAddress) (bundle : Option PreKeyBundle)
    (fresh : Nat) (st' : SignalProtocolStore) (f' : Nat)
    (a : SignalProtocolAddress) (h : a ≠ address)
    (hr : SessionBuilder_processPreKey store address bundle fresh = .ok (st', f')) :
    st'.sessions a = store.sessions a := by
  unfold SessionBuilder_processPreKey at hr
  repeat' split at hr
  all_goals cases hr
  all_goals simp [storeSession, h]

theorem encrypt_sessions_frame (store : SignalProtocolStore)
    (address : SignalProtocolAddress) (message : String) (fresh : Nat)
    (env : CiphertextEnvelope) (st' : SignalProtocolStore) (f' : Nat)
    (a : SignalProtocolAddress) (h : a ≠ address)
    (hr : SessionCipher_encrypt store address message fresh = .ok (env, st', f')) :
    st'.sessions a = store.sessions a := by
  unfold SessionCipher_encrypt at hr
  repeat' split at hr
  all_goals cases hr
  all_goals simp [storeSession, h]

theorem decryptPreKey_sessions_frame (store : SignalProtocolStore)
    (address : SignalProtocolAddress) (body : MessageBody) (fresh : Nat)
    (p : String) (st' : SignalProtocolStore) (f' : Nat)
    (a : SignalProtocolAddress) (h : a ≠ address)
    (hr : (SessionCipher_decryptPreKeyWhisperMessage store address body fresh).val =
      .ok (p, st', f')) :
    st'.sessions a = store.sessions a := by
  unfold SessionCipher_decryptPreKeyWhisperMessage at hr
  dsimp only at hr
  repeat' split at hr
  all_goals cases hr
  all_goals simp [storeSession, removePreKey, h]

theorem decryptWhisper_sessions_frame (store : SignalProtocolStore)
    (address : SignalProtocolAddress) (body : MessageBody) (fresh : Nat)
    (p : String) (st' : SignalProtocolStore) (f' : Nat)
    (a : SignalProtocolAddress) (h : a ≠ address)
    (hr : (SessionCipher_decryptWhisperMessage store address body fresh).val =
      .ok (p, st', f')) :
    st'.sessions a = store.sessions a := by
  unfold SessionCipher_decryptWhisperMessage at hr
  repeat' split at hr
  all_goals cases hr
  all_goals simp [storeSession, h]

/-- C10: for every user ID u and bundle b, getPreKeyBundle u after
registerNewPreKeyBundle u b returns exactly b, a later registration for
the same u overwrites the earlier one, and getPreKeyBundle for a user ID
that was never registered returns undefined (none) without any error. -/
theorem signalServerStore_register_get :
    (∀ (s : SignalServerStore) (u : String) (b : PreKeyBundle),
      getPreKeyBundle (registerNewPreKeyBundle s u b) u = some b) ∧
    (∀ (s : SignalServerStore) (u : String) (b b' : PreKeyBundle),
      getPreKeyBundle (registerNewPreKeyBundle (registerNewPreKeyBundle s u b) u b') u = some b') ∧
    (∀ u : String, getPreKeyBundle emptySignalServerStore u = none) := by
  refine ⟨?_, ?_, ?_⟩ <;> intros <;>
    simp [getPreKeyBundle, registerNewPreKeyBundle, emptySignalServerStore]

/-- C9: for every user ID, initializeAsync succeeds and registers a bundle
whose one-time PreKey ID is 123 and whose SignedPreKey ID is 456. -/
theorem initializeAsync_registers_ids (userId : String) (st : SignalProtocolStore)
    (server : SignalServerStore) (fresh : Nat) :
    ∃ r, initializeAsync userId st server fresh = .ok r ∧
      (getPreKeyBundle r.2.1 userId).map
        (fun b => (b.preKey.keyId, b.signedPreKey.keyId)) = some (123, 456) := by
  refine ⟨_, rfl, ?_⟩
  simp [getPreKeyBundle, registerNewPreKeyBundle]

/-- C4: for every pair of IDs, generatePreKeyBundleAsync generates one
PreKey pair and one SignedPreKey pair whose public key is signed with the
IdentityKeyPair's private key (and whose signature verifies), persists
both key pairs in the store under their IDs, and returns a bundle
containing exactly the identity public key, the registration ID, the
PreKey public key with its ID, and the SignedPreKey public key with its
ID and signature. -/
theorem generatePreKeyBundle_spec (preKeyId signedPreKeyId fresh : Nat)
    (st : SignalProtocolStore) (idk : KeyPair) (rid : Nat)
    (h1 : st.identityKeyPair = some idk) (h2 : st.registrationId = some rid) :
    generatePreKeyBundleAsync st preKeyId signedPreKeyId fresh =
      .ok ({ identityKey := idk.pubKey, registrationId := rid,
             preKey := { keyId := preKeyId, publicKey := pubOf fresh },
             signedPreKey := { keyId := signedPreKeyId, publicKey := pubOf (fresh + 1),
                               signature := signKey idk.priv (pubOf (fresh + 1)) } },
           storeSignedPreKey (storePreKey st preKeyId ⟨fresh⟩) signedPreKeyId ⟨fresh + 1⟩,
           fresh + 2) ∧
    (storeSignedPreKey (storePreKey st preKeyId ⟨fresh⟩) signedPreKeyId ⟨fresh + 1⟩).preKeys
        preKeyId = some ⟨fresh⟩ ∧
    (storeSignedPreKey (storePreKey st preKeyId ⟨fresh⟩) signedPreKeyId ⟨fresh + 1⟩).signedPreKeys
        signedPreKeyId = some ⟨fresh + 1⟩ ∧
    verifySig idk.pubKey (pubOf (fresh + 1)) (signKey idk.priv (pubOf (fresh + 1))) = true := by
  refine ⟨?_, ?_, ?_, ?_⟩
  · simp [generatePreKeyBundleAsync, h1, h2, KeyHelper_generatePreKey,
      KeyHelper_generateSignedPreKey, KeyPair.pubKey]
  · simp [storeSignedPreKey, storePreKey]
  · simp [storeSignedPreKey, storePreKey]
  · simp [verifySig, signKey, KeyPair.pubKey]

/-- Witness for C4's theorem at a concrete store holding identity key pair
5 and registration ID 9. -/
theorem generatePreKeyBundle_spec_witness :
    witStore.identityKeyPair = some ⟨5⟩ ∧ witStore.registrationId = some 9 ∧
    (storeSignedPreKey (storePreKey witStore 7 ⟨100⟩) 8 ⟨101⟩).preKeys 7 = some ⟨100⟩ :=
  ⟨rfl, rfl, (generatePreKeyBundle_spec 7 8 100 witStore ⟨5⟩ 9 rfl rfl).2.1⟩

/-- C6 (code bug): decrypting an ORDINARY_MESSAGE with no SessionState
makes the underlying decryptWhisperMessage job reject with NoSession, but
because the source's ordinary branch does not await it, decryptMessageAsync
resolves successfully with the stringified pending Promise and the typed
error never reaches the caller. -/
theorem noSession_error_swallowed :
    (SessionCipher_decryptWhisperMessage demoStore2 ⟨user1, 123⟩ demoEncrypted1.body
        demoFresh0).val = .error .noSession ∧
    decryptMessageAsync demoStore2 user1 ⟨ORDINARY_MESSAGE, demoEncrypted1.body⟩ demoFresh0 =
      .ok ("[object Promise]", demoStore2, demoFresh0) :=
  ⟨rfl, rfl⟩

/-- C1 (code bug): the first message from user1 to user2 is a
PREKEY_MESSAGE and round-trips to the original plaintext, but the second
(ORDINARY_MESSAGE) does not: the queued decryptWhisperMessage job would
have produced the plaintext, yet the un-awaited demo decryption returns
the stringified pending Promise instead. -/
theorem roundtrip_ordinary_not_returned :
    demoEncrypted1.type = PREKEY_MESSAGE ∧
    demoDec1.1 = "Hello User 2 !" ∧
    demoEncA2.1.type = ORDINARY_MESSAGE ∧
    demoUnderlyingB2.toOption.map (fun r => r.1) = some "Hello once more User 2 !" ∧
    demoDecB2.toOption.map (fun r => r.1) = some "[object Promise]" ∧
    demoDecB2.toOption.map (fun r => r.1) ≠ some "Hello once more User 2 !" := by
  refine ⟨rfl, rfl, rfl, rfl, rfl, ?_⟩
  decide

/-- C2 (code bug): in the demo scenario the first exchange succeeds
(PREKEY_MESSAGE, decrypted back to the plaintext, sessions on both sides),
and user2's reply is an ORDINARY_MESSAGE whose underlying decryption at
user1 would yield the plaintext, but user2's reply encryption performs a
further bundle fetch and user1's demo decryption returns the stringified
pending Promise rather than the reply text. -/
theorem demo_scenario_reply_decryption_bug :
    demoEncrypted1.type = PREKEY_MESSAGE ∧
    demoDec1.1 = "Hello User 2 !" ∧
    (loadSession demoStore1b ⟨user2, 123⟩).isSome = true ∧
    (loadSession demoStore2b ⟨user1, 123⟩).isSome = true ∧
    demoEncrypted2.type = ORDINARY_MESSAGE ∧
    demoEncryptCall2.2 = [DirectoryEvent.fetchBundle user1] ∧
    demoUnderlying2.toOption.map (fun r => r.1) = some "What is up user 1?" ∧
    demoDec2.toOption.map (fun r => r.1) = some "[object Promise]" ∧
    demoDec2.toOption.map (fun r => r.1) ≠ some "What is up user 1?" := by
  refine ⟨rfl, rfl, rfl, rfl, rfl, rfl, rfl, rfl, ?_⟩
  decide

/-- C3 counterexample: with a SessionState already present for user2,
user1's encryptMessageAsync still performs the directory fetch of user2's
pre-key bundle, contradicting the claim that no fetch happens then. -/
theorem encrypt_refetches_bundle_with_session :
    (loadSession demoStore1b ⟨user2, 123⟩).isSome = true ∧
    (encryptMessageAsync demoStore1b demoServer user2 "again" demoDec1.2.2).2 =
      [DirectoryEvent.fetchBundle user2] :=
  ⟨rfl, rfl⟩

/-- C3 (amended): encryptMessageAsync fetches the remote bundle on every
call, but when a SessionState with an initialized sending chain and no
pending handshake exists, the fetched bundle is not consumed — the result
does not depend on the directory contents, the session's root key and
ratchet keys are unchanged, only the sending chain is advanced in place —
and the envelope is an ORDINARY_MESSAGE. -/
theorem encrypt_existing_session_behavior (st : SignalProtocolStore)
    (server : SignalServerStore) (remote message : String) (fresh : Nat)
    (s : SessionState) (ck : CKey) (n : Nat)
    (hs : loadSession st ⟨remote, 123⟩ = some s)
    (hc : s.sendChain = some (ck, n))
    (hp : s.pendingHandshake = none) :
    encryptMessageAsync st server remote message fresh =
      (.ok (⟨ORDINARY_MESSAGE,
             ⟨none, ⟨pubOf s.localRatchet, n, symEncrypt (MKey.hmacMsg ck) message⟩⟩⟩,
            storeSession st ⟨remote, 123⟩
              { s with sendChain := some (CKey.hmacChain ck, n + 1), pendingHandshake := none },
            fresh),
       [DirectoryEvent.fetchBundle remote]) := by
  simp [encryptMessageAsync, SessionBuilder_processPreKey, SessionCipher_encrypt,
    sessionSend, advanceChain, symEncrypt, hs, hc, hp]

/-- Witness for C3's amended theorem on user1's state after the first
demo exchange. -/
theorem encrypt_existing_session_behavior_witness :
    (encryptMessageAsync demoStore1b demoServer user2 "Hello once more User 2 !"
        demoDec1.2.2).2 = [DirectoryEvent.fetchBundle user2] := by
  have h := encrypt_existing_session_behavior demoStore1b demoServer user2
    "Hello once more User 2 !" demoDec1.2.2 demoSessionA demoCkA 1 rfl rfl rfl
  exact congrArg Prod.snd h

/-- C5: decryptMessageAsync dispatches on exactly one envelope type per
wire message: it takes the pre-key decryption path precisely when the
envelope's type field is 3 and the ordinary path for every other type
value; moreover a successful pre-key decryption from a state with no
session bootstraps a SessionState. -/
theorem decrypt_dispatch_on_type3 (st : SignalProtocolStore) (remote : String)
    (env : CiphertextEnvelope) (fresh : Nat) :
    (env.type = 3 →
      decryptMessageAsync st remote env fresh =
        match (SessionCipher_decryptPreKeyWhisperMessage st ⟨remote, 123⟩ env.body fresh).val with
        | .error e => .error e
        | .ok (m, st', f') => .ok (util_toString (JsValue.str m), st', f')) ∧
    (env.type ≠ 3 →
      decryptMessageAsync st remote env fresh =
        match (SessionCipher_decryptWhisperMessage st ⟨remote, 123⟩ env.body fresh).val with
        | .ok (_, st', f') => .ok (util_toString JsValue.pendingPromise, st', f')
        | .error _ => .ok (util_toString JsValue.pendingPromise, st, fresh)) ∧
    (env.type = 3 → loadSession st ⟨remote, 123⟩ = none →
      ∀ p st' f', decryptMessageAsync st remote env fresh = .ok (p, st', f') →
        (loadSession st' ⟨remote, 123⟩).isSome = true) := by
  refine ⟨?_, ?_, ?_⟩
  · intro h3
    simp [decryptMessageAsync, h3]
  · intro h3
    simp [decryptMessageAsync, h3]
  · intro h3 hn p st' f' hrun
    simp only [decryptMessageAsync, h3] at hrun
    norm_num at hrun
    unfold SessionCipher_decryptPreKeyWhisperMessage at hrun
    dsimp only at hrun
    rw [hn] at hrun
    dsimp only at hrun
    repeat' split at hrun
    all_goals cases hrun
    all_goals rename_i heq
    all_goals repeat' split at heq
    all_goals cases heq
    all_goals simp [loadSession, storeSession]

/-- Witness for C5's theorem: user2's decryption of the first demo
message (type 3, no prior session) leaves a bootstrapped session. -/
theorem decrypt_dispatch_on_type3_witness :
    (loadSession demoDec1.2.1 ⟨user1, 123⟩).isSome = true := by
  have h := (decrypt_dispatch_on_type3 demoStore2 user1 demoEncrypted1 demoEnc1.2.2).2.2
  exact h rfl rfl demoDec1.1 demoDec1.2.1 demoDec1.2.2 rfl

/-- C7: every SignalProtocolAddress the demo constructs uses the
hard-coded device ID 123, so sessions are keyed by (remoteUserId, 123):
neither encryptMessageAsync nor decryptMessageAsync changes the session
map at any other address. -/
theorem sessions_keyed_by_device123 (st : SignalProtocolStore) (server : SignalServerStore)
    (remoteUserId message : String) (env : CiphertextEnvelope) (fresh : Nat)
    (a : SignalProtocolAddress) (ha : a ≠ ⟨remoteUserId, 123⟩) :
    (∀ env' st' f' log,
      encryptMessageAsync st server remoteUserId message fresh = (.ok (env', st', f'), log) →
      st'.sessions a = st.sessions a) ∧
    (∀ p st' f',
      decryptMessageAsync st remoteUserId env fresh = .ok (p, st', f') →
      st'.sessions a = st.sessions a) := by
  constructor
  · intro env' st' f' log hrun
    unfold encryptMessageAsync at hrun
    dsimp only at hrun
    split at hrun
    · cases hrun
    · rename_i store1 f1 heq
      have h1 := congrArg Prod.fst hrun
      dsimp only at h1
      exact (encrypt_sessions_frame store1 ⟨remoteUserId, 123⟩ message f1 env' st' f' a ha
          h1).trans
        (processPreKey_sessions_frame st ⟨remoteUserId, 123⟩
          (getPreKeyBundle server remoteUserId) fresh store1 f1 a ha heq)
  · intro p st' f' hrun
    unfold decryptMessageAsync at hrun
    dsimp only at hrun
    split at hrun
    · split at hrun
      · cases hrun
      · rename_i heq
        cases hrun
        exact decryptPreKey_sessions_frame _ _ _ _ _ _ _ a ha heq
    · split at hrun
      · rename_i heq
        cases hrun
        exact decryptWhisper_sessions_frame _ _ _ _ _ _ _ a ha heq
      · cases hrun
        rfl

/-- Witness for C7's theorem: user1's first demo send changes nothing at
device ID 999 for user2. -/
theorem sessions_keyed_by_device123_witness :
    demoEnc1.2.1.sessions ⟨user2, 999⟩ = demoStore1.sessions ⟨user2, 999⟩ := by
  have h := (sessions_keyed_by_device123 demoStore1 demoServer user2 "Hello User 2 !"
    demoEncrypted1 demoFresh0 ⟨user2, 999⟩ (by decide)).1
  exact h demoEnc1.1 demoEnc1.2.1 demoEnc1.2.2 demoEncryptCall1.2 rfl
